import Mathlib

/-!
Verification of the MCP tool-host subsystem of the TEG_2025 repository.

The definitions below shallowly embed the Python sources under `src/6. MCP/`:
the math server handlers (`math_server/math_server.py`), the weather server's
module-level credential check (`weather_server/weather.py`), the tavily
server's search tools (`tavily_server/tavily.py`), the wikipedia server's
summary/content tools (`wikipedia_server/wikipedia.py`), and the client demo
call sequences.  Python floats are modelled over `ℚ` (exact where the code is
exact); Python `int` over `ℤ`; a fallible handler returns `Except`.

The MCP session state machine, the registry `register`/`dispatch` operations
and the result encoding live in the third-party `mcp` library, which is not
part of the repository's sources; those pieces are modelled from the spec and
are marked `Modelled from the spec:` in their doc comments.
-/

namespace MCPHost

/-- Python exceptions that the embedded handlers can raise. -/
inductive PyErr where
  | valueError (msg : String)
  | zeroDivisionError
  deriving DecidableEq, Repr

/-- A Python numeric value as produced by the math handlers: a float or int
(both exact here, over `ℚ`/`ℤ`), or a complex float (produced by `**` on a
negative base with fractional exponent). -/
inductive PyNum where
  | real (q : ℚ)
  | int (n : ℤ)
  | complex (re im : ℚ)
  deriving DecidableEq, Repr

/-- Python truthiness of an optional string (`if not s:` is taken for a
missing value and for the empty string). -/
def pyTruthy : Option String → Bool
  | none => false
  | some s => s ≠ ""

/-- Python float `**` (`a ** b`), modelled over `ℚ`.  `0.0 ** b` with `b < 0`
raises `ZeroDivisionError`, as in Python.  An integer exponent gives the exact
power.  A fractional exponent yields an inexact float in Python; it is
modelled with `Rat.sqrt`, which agrees with the only fractional exponent the
sources use (`0.5`, from `sqrt`) on perfect squares.  A negative base with a
fractional exponent yields a complex float in Python. -/
def pyPow (a b : ℚ) : Except PyErr PyNum :=
  if a = 0 ∧ b < 0 then .error .zeroDivisionError
  else if b.den = 1 then .ok (.real (a ^ b.num))
  else if 0 ≤ a then .ok (.real (Rat.sqrt (a ^ b.num)))
  else .ok (.complex 0 (Rat.sqrt ((-a) ^ b.num)))

/-! Handlers of `math_server/math_server.py`, in source order. -/

/-- Handler `add(a, b)`: `return a + b`. -/
def add (a b : ℚ) : ℚ := a + b

/-- Handler `subtract(a, b)`: `return a - b`. -/
def subtract (a b : ℚ) : ℚ := a - b

/-- Handler `multiply(a, b)`: `return a * b`. -/
def multiply (a b : ℚ) : ℚ := a * b

/-- Handler `divide(a, b)`: raises `ValueError` when `b == 0`, else `return a / b`. -/
def divide (a b : ℚ) : Except PyErr ℚ :=
  if b = 0 then .error (.valueError "Cannot divide by zero")
  else .ok (a / b)

/-- Handler `power(a, b)`: `return a ** b` (no domain validation in the source). -/
def power (a b : ℚ) : Except PyErr PyNum := pyPow a b

/-- Handler `sqrt(a)`: raises `ValueError` when `a < 0`, else `return a ** 0.5`. -/
def sqrt (a : ℚ) : Except PyErr PyNum :=
  if a < 0 then .error (.valueError "Cannot calculate square root of negative number")
  else pyPow a (1 / 2)

/-- Handler `factorial(n)`: raises `ValueError` when `n < 0`; returns `1` for
`n == 0 or n == 1`; otherwise `result = 1; for i in range(2, n + 1):
result *= i; return result`.  `range(2, n + 1)` is `[2, …, n]`, embedded as
`List.range' 2 (n - 1).toNat`. -/
def factorial (n : ℤ) : Except PyErr ℤ :=
  if n < 0 then .error (.valueError "Factorial is not defined for negative numbers")
  else if n = 0 ∨ n = 1 then .ok 1
  else .ok (((List.range' 2 (n - 1).toNat).map Int.ofNat).foldl (· * ·) 1)

/-! The dispatcher, registry and session layers.  These live in the
third-party `mcp` library (FastMCP / ClientSession), not in the repository's
own sources, so they are modelled from the spec. -/

/-- An argument value in a ToolCallRequest's argument map: a JSON number
(modelled over `ℚ`) or a JSON string. -/
inductive ArgVal where
  | num (q : ℚ)
  | str (s : String)
  deriving DecidableEq, Repr

/-- A ToolCallRequest's argument map. -/
abbrev Args := List (String × ArgVal)

/-- Look up a numeric argument by parameter name. -/
def getNumArg (args : Args) (k : String) : Option ℚ :=
  match args.find? (fun p => p.1 = k) with
  | some (_, .num q) => some q
  | _ => none

/-- Modelled from the spec: the outcome of routing one ToolCallRequest —
either the handler's value, the handler's exception (caught by the
dispatcher), `UnknownToolError`, or `InvalidArgumentsError` naming the
offending field. -/
inductive CallOutcome where
  | ok (v : PyNum)
  | handlerError (e : PyErr)
  | unknownTool (name : String)
  | invalidArguments (field : String)
  deriving DecidableEq, Repr

/-- Lift a fallible handler's `Except` result into a `CallOutcome`: the
dispatcher catches a raised exception. -/
def outcomeOfExcept : Except PyErr PyNum → CallOutcome
  | .ok v => .ok v
  | .error e => .handlerError e

/-- Argument extraction and invocation for `add`. -/
def addTool (args : Args) : CallOutcome :=
  match getNumArg args "a", getNumArg args "b" with
  | some a, some b => .ok (.real (add a b))
  | none, _ => .invalidArguments "a"
  | _, none => .invalidArguments "b"

/-- Argument extraction and invocation for `subtract`. -/
def subtractTool (args : Args) : CallOutcome :=
  match getNumArg args "a", getNumArg args "b" with
  | some a, some b => .ok (.real (subtract a b))
  | none, _ => .invalidArguments "a"
  | _, none => .invalidArguments "b"

/-- Argument extraction and invocation for `multiply`. -/
def multiplyTool (args : Args) : CallOutcome :=
  match getNumArg args "a", getNumArg args "b" with
  | some a, some b => .ok (.real (multiply a b))
  | none, _ => .invalidArguments "a"
  | _, none => .invalidArguments "b"

/-- Argument extraction and invocation for `divide`. -/
def divideTool (args : Args) : CallOutcome :=
  match getNumArg args "a", getNumArg args "b" with
  | some a, some b => outcomeOfExcept ((divide a b).map .real)
  | none, _ => .invalidArguments "a"
  | _, none => .invalidArguments "b"

/-- Argument extraction and invocation for `power`. -/
def powerTool (args : Args) : CallOutcome :=
  match getNumArg args "a", getNumArg args "b" with
  | some a, some b => outcomeOfExcept (power a b)
  | none, _ => .invalidArguments "a"
  | _, none => .invalidArguments "b"

/-- Argument extraction and invocation for `sqrt`. -/
def sqrtTool (args : Args) : CallOutcome :=
  match getNumArg args "a" with
  | some a => outcomeOfExcept (sqrt a)
  | none => .invalidArguments "a"

/-- Argument extraction and invocation for `factorial`: the parameter is a
Python `int`, so a non-integral number fails schema validation. -/
def factorialTool (args : Args) : CallOutcome :=
  match getNumArg args "n" with
  | some q =>
      if q.den = 1 then outcomeOfExcept ((factorial q.num).map .int)
      else .invalidArguments "n"
  | none => .invalidArguments "n"

/-- The math Host's tool registry contents, in the source's `@mcp.tool()`
decorator order (`math_server/math_server.py`). -/
def mathTools : List (String × (Args → CallOutcome)) :=
  [("add", addTool), ("subtract", subtractTool), ("multiply", multiplyTool),
   ("divide", divideTool), ("power", powerTool), ("sqrt", sqrtTool),
   ("factorial", factorialTool)]

/-- The math Host's registered tool names, in registration order. -/
def mathToolNames : List String := mathTools.map (·.1)

/-- Render a handler's numeric value as the single text block of a
ToolCallResult. -/
def numToText : PyNum → String
  | .real q => toString q
  | .int n => toString n
  | .complex re im => "(" ++ toString re ++ "+" ++ toString im ++ "j)"

/-- Render a caught exception as readable error text. -/
def errText : PyErr → String
  | .valueError msg => msg
  | .zeroDivisionError => "0.0 cannot be raised to a negative power"

/-- Modelled from the spec: ToolCallResult — a single text content block and
an `is_error` flag. -/
structure ToolCallResult where
  content : String
  is_error : Bool
  deriving DecidableEq, Repr

/-- Modelled from the spec: `dispatch(name, arguments)` routing on the math
Host — looks up `name` (UnknownToolError if absent), validates arguments,
invokes the handler. -/
def mathInvoke (name : String) (args : Args) : CallOutcome :=
  match mathTools.find? (fun p => p.1 = name) with
  | none => .unknownTool name
  | some (_, h) => h args

/-- Modelled from the spec: every call-level outcome is encoded as a
ToolCallResult; handler exceptions and Unknown/InvalidArguments errors become
`is_error = true` with descriptive text, never a propagated exception. -/
def resultOfOutcome : CallOutcome → ToolCallResult
  | .ok v => ⟨numToText v, false⟩
  | .handlerError e => ⟨errText e, true⟩
  | .unknownTool n => ⟨"Unknown tool: " ++ n, true⟩
  | .invalidArguments f => ⟨"Invalid arguments: missing or mistyped field " ++ f, true⟩

/-- Modelled from the spec: the math Host's dispatcher, total on all inputs
(it never raises out of the dispatch boundary). -/
def mathDispatch (name : String) (args : Args) : ToolCallResult :=
  resultOfOutcome (mathInvoke name args)

/-! Registry construction. -/

/-- Modelled from the spec: registration failure. -/
inductive RegErr where
  | duplicateTool (name : String)
  deriving DecidableEq, Repr

/-- Modelled from the spec: `register(name, schema, handler)` adds an entry
and fails with `DuplicateToolError` if the name is already present.  Only the
name component matters for the registry-shape properties. -/
def register (names : List String) (n : String) : Except RegErr (List String) :=
  if n ∈ names then .error (.duplicateTool n) else .ok (names ++ [n])

/-- Register a whole list of tool names in order, starting from an empty
registry. -/
def registerAll (names : List String) : Except RegErr (List String) :=
  names.foldlM register []

/-- Tool names of the weather Host (`weather_server/weather.py`), in
decorator order. -/
def weatherToolNames : List String :=
  ["get_forecast", "get_current_conditions", "get_weather_by_city"]

/-- Tool names of the wikipedia Host (`wikipedia_server/wikipedia.py`), in
decorator order. -/
def wikipediaToolNames : List String :=
  ["search_wikipedia", "get_wikipedia_summary", "get_wikipedia_content",
   "get_random_wikipedia"]

/-- Tool names of the arxiv Host (`arxiv_server/arxiv.py`), in decorator
order. -/
def arxivToolNames : List String :=
  ["search_papers", "search_by_author", "search_by_category"]

/-- Tool names of the tavily Host (`tavily_server/tavily.py`), in decorator
order. -/
def tavilyToolNames : List String :=
  ["search", "search_news"]

/-! Session state machine and client demo call sequences. -/

/-- Modelled from the spec: the three Session states. -/
inductive SessionState where
  | uninitialized
  | ready
  | closed
  deriving DecidableEq, Repr

/-- A request a Client can issue on a Session. -/
inductive SessionReq where
  | initReq
  | listTools
  | callTool (name : String) (args : Args)
  | close
  deriving DecidableEq, Repr

/-- A Session's answer to one request. -/
inductive SessionResp where
  | initOk
  | toolList (names : List String)
  | result (r : ToolCallResult)
  | closedAck
  | sessionError (msg : String)
  deriving DecidableEq, Repr

/-- Error text for a `list`/`dispatch` attempt before the handshake. -/
def handshakeRequiredMsg : String := "handshake required: session not initialized"

/-- Error text for any request on a CLOSED session. -/
def sessionClosedMsg : String := "session closed"

/-- Modelled from the spec: the Session state machine of a math Host session.
UNINITIALIZED answers `list`/`dispatch` with a handshake-required error and
only `initialize` moves to READY; READY serves `list` from the registry and
routes `dispatch` through `mathDispatch`, staying READY whatever the
call-level outcome; CLOSED is terminal and answers every request with a
Session-level error.  (The spec does not define `initialize` on a READY
session; the demos never re-initialize, so it is modelled as a no-op.) -/
def sessionStep : SessionState → SessionReq → SessionState × SessionResp
  | .uninitialized, .initReq => (.ready, .initOk)
  | .uninitialized, .listTools => (.uninitialized, .sessionError handshakeRequiredMsg)
  | .uninitialized, .callTool _ _ => (.uninitialized, .sessionError handshakeRequiredMsg)
  | .uninitialized, .close => (.closed, .closedAck)
  | .ready, .initReq => (.ready, .initOk)
  | .ready, .listTools => (.ready, .toolList mathToolNames)
  | .ready, .callTool n a => (.ready, .result (mathDispatch n a))
  | .ready, .close => (.closed, .closedAck)
  | .closed, _ => (.closed, .sessionError sessionClosedMsg)

/-- Run a list of requests through the Session machine, collecting the
responses and the final state. -/
def runSession : SessionState → List SessionReq → List SessionResp × SessionState
  | st, [] => ([], st)
  | st, op :: ops =>
      let (st', resp) := sessionStep st op
      let (resps, stFin) := runSession st' ops
      (resp :: resps, stFin)

/-- Whether a request is a `list`/`dispatch` attempt (the requests that are
only valid in READY). -/
def isToolRequest : SessionReq → Bool
  | .listTools => true
  | .callTool _ _ => true
  | _ => false

/-- A trace performs the initialize handshake before its first
`list`/`dispatch` request. -/
def initFirst (ops : List SessionReq) : Bool :=
  (ops.takeWhile (fun op => op ≠ SessionReq.initReq)).all
    (fun op => !isToolRequest op)

/-- Requests of `call_mcp_tool` in `2_simple_demo.py`: a fresh session,
`session.initialize()`, then one `session.call_tool(tool_name, args)`, then
teardown by the context managers. -/
def simpleDemoCallOps (name : String) (args : Args) : List SessionReq :=
  [.initReq, .callTool name args, .close]

/-- Requests of `demo_math_server` in `3_mcp_client_demo.py`: initialize,
list tools, then add(5,3), multiply(7,6), power(2,8), sqrt(16). -/
def clientDemoMathOps : List SessionReq :=
  [.initReq, .listTools,
   .callTool "add" [("a", .num 5), ("b", .num 3)],
   .callTool "multiply" [("a", .num 7), ("b", .num 6)],
   .callTool "power" [("a", .num 2), ("b", .num 8)],
   .callTool "sqrt" [("a", .num 16)],
   .close]

/-- Requests of `demo_weather_server` in `3_mcp_client_demo.py`. -/
def clientDemoWeatherOps : List SessionReq :=
  [.initReq,
   .callTool "get_forecast"
     [("latitude", .num 37.7749), ("longitude", .num (-122.4194))],
   .close]

/-- Requests of `demo_wikipedia_server` in `3_mcp_client_demo.py`. -/
def clientDemoWikipediaOps : List SessionReq :=
  [.initReq,
   .callTool "get_wikipedia_summary" [("title", .str "Machine learning")],
   .close]

/-- Requests of the math section of `1.mcp_demo - interactive copy.py` and of
`2.mcp_demo - CLI.py` (identical call sequences). -/
def interactiveDemoMathOps : List SessionReq :=
  [.initReq, .listTools,
   .callTool "add" [("a", .num 5), ("b", .num 3)],
   .callTool "multiply" [("a", .num 7), ("b", .num 6)],
   .callTool "power" [("a", .num 2), ("b", .num 8)],
   .callTool "sqrt" [("a", .num 16)],
   .close]

/-- Requests of the weather section of `1.mcp_demo - interactive copy.py` and
of `2.mcp_demo - CLI.py`. -/
def interactiveDemoWeatherOps : List SessionReq :=
  [.initReq, .listTools,
   .callTool "get_weather_by_city" [("city", .str "Warsaw")],
   .callTool "get_current_conditions"
     [("latitude", .num 52.2297), ("longitude", .num 21.0122)],
   .callTool "get_forecast"
     [("latitude", .num 52.2297), ("longitude", .num 21.0122)],
   .close]

/-- Requests of the wikipedia section of `1.mcp_demo - interactive copy.py`
and of `2.mcp_demo - CLI.py`. -/
def interactiveDemoWikipediaOps : List SessionReq :=
  [.initReq,
   .callTool "get_wikipedia_summary" [("title", .str "Machine learning")],
   .close]

/-- The concrete fixed traces of every MCP client demo in the repository
(`call_mcp_tool`'s parametric trace is treated separately). -/
def demoTraces : List (List SessionReq) :=
  [clientDemoMathOps, clientDemoWeatherOps, clientDemoWikipediaOps,
   interactiveDemoMathOps, interactiveDemoWeatherOps,
   interactiveDemoWikipediaOps]

/-! Weather Host credential policy (`weather_server/weather.py`). -/

/-- Module-level credential check of `weather.py`:
`API_KEY = os.getenv("OPENWEATHERMAP_API_KEY")` followed by
`if not API_KEY: raise ValueError(...)`.  The argument is the environment
variable's value (`none` when unset). -/
def weatherModuleInit (env : Option String) : Except PyErr String :=
  if pyTruthy env then .ok (env.getD "")
  else .error (.valueError "OPENWEATHERMAP_API_KEY environment variable is required")

/-- A running weather Host process, which exists only after the module body
(including the credential check) has executed. -/
structure WeatherHost where
  apiKey : String
  deriving DecidableEq, Repr

/-- Starting the weather Host: the module body runs first (raising at import
when the key is missing), and only then does `mcp.run(transport='stdio')`
start serving; a raise at module load means no Host ever starts. -/
def weatherStartup (env : Option String) : Except PyErr WeatherHost :=
  (weatherModuleInit env).map WeatherHost.mk

/-! Tavily Host (`tavily_server/tavily.py`).  The upstream HTTP API is an
external collaborator; it is modelled as the parsed-JSON response the one
POST the code can make would yield (`none` for any request failure), and each
function also counts how many upstream requests it attempted. -/

/-- One entry of the upstream response's `results` list; the fields
`format_search_result` reads (`score`, a float in the real API, is kept as
its rendered text). -/
structure TavilyResult where
  title : Option String
  url : Option String
  content : Option String
  score : Option String
  deriving DecidableEq, Repr

/-- The parsed upstream JSON of a tavily search response: `answer` (absent
key as `none`) and `results` (absent key and empty list both model as `[]`,
matching Python truthiness of `response.get("results")`). -/
structure TavilyResp where
  answer : Option String
  results : List TavilyResult
  deriving DecidableEq, Repr

/-- Helper `format_search_result(result)`. -/
def format_search_result (r : TavilyResult) : String :=
  "\nTitle: " ++ r.title.getD "No title" ++
  "\nURL: " ++ r.url.getD "No URL" ++
  "\nContent: " ++ r.content.getD "No content available" ++
  "\nScore: " ++ r.score.getD "N/A" ++ "\n"

/-- Helper `make_tavily_request(endpoint, data)`: returns `None` without any HTTP
request when the key is missing; otherwise it POSTs once and yields the
upstream response (`none` on any exception).  The second component counts the
HTTP requests attempted. -/
def make_tavily_request (key : Option String) (upstream : Option TavilyResp) :
    Option TavilyResp × ℕ :=
  if pyTruthy key then (upstream, 1) else (none, 0)

/-- Tool `search(query, max_results)` of `tavily.py`.  `query` and `max_results`
only shape the request payload, which the upstream oracle abstracts. -/
def tavilySearch (key : Option String) (upstream : Option TavilyResp)
    (_query : String) (_max_results : ℤ) : String × ℕ :=
  if ¬ pyTruthy key then
    ("Tavily API key not found. Please set TAVILY_API_KEY environment variable.", 0)
  else
    let (response, n) := make_tavily_request key upstream
    match response with
    | none => ("Unable to perform search. Please check your query and try again.", n)
    | some resp =>
        if resp.results = [] then ("No search results found.", n)
        else
          let formatted := "\n---\n".intercalate (resp.results.map format_search_result)
          if pyTruthy resp.answer then
            ("Answer: " ++ resp.answer.getD "" ++ "\n\nSearch Results:\n" ++ formatted, n)
          else
            ("Search Results:\n" ++ formatted, n)

/-- Tool `search_news(query, max_results)` of `tavily.py` (same structure as
`search`, different message strings and a `days: 7` payload field the oracle
absorbs). -/
def tavilySearchNews (key : Option String) (upstream : Option TavilyResp)
    (_query : String) (_max_results : ℤ) : String × ℕ :=
  if ¬ pyTruthy key then
    ("Tavily API key not found. Please set TAVILY_API_KEY environment variable.", 0)
  else
    let (response, n) := make_tavily_request key upstream
    match response with
    | none => ("Unable to perform news search. Please check your query and try again.", n)
    | some resp =>
        if resp.results = [] then ("No news results found.", n)
        else
          let formatted := "\n---\n".intercalate (resp.results.map format_search_result)
          if pyTruthy resp.answer then
            ("News Summary: " ++ resp.answer.getD "" ++ "\n\nNews Results:\n" ++ formatted, n)
          else
            ("News Results:\n" ++ formatted, n)

/-! Wikipedia Host (`wikipedia_server/wikipedia.py`).  `make_wikipedia_request`
is modelled as an oracle from the request URL to the parsed JSON (`none` for
any request failure), so both tools below are deterministic functions of the
title and a fixed upstream response. -/

/-- Base URL constant of `wikipedia.py`. -/
def WIKIPEDIA_API_BASE : String := "https://en.wikipedia.org/api/rest_v1"

/-- One entry of a mobile-sections response's `sections` list, with the two
fields the code reads. -/
structure WikiSection where
  line : Option String
  text : Option String
  deriving DecidableEq, Repr

/-- A parsed Wikipedia API JSON response, flattened to the fields the code
reads: `type`, `extract`, `title`, `content_urls.desktop.page`,
`thumbnail.source` (for a summary response) and `sections` (for a
mobile-sections response); an absent key is `none`. -/
structure WikiData where
  type : Option String
  extract : Option String
  title : Option String
  pageUrl : Option String
  thumbnail : Option String
  sections : Option (List WikiSection)
  deriving DecidableEq, Repr

/-- The oracle standing for `make_wikipedia_request`: what the upstream API
answers at each URL. -/
abbrev WikiFetch := String → Option WikiData

/-- Helper `clean_wikipedia_text(text)`: `' '.join(text.split())`. -/
def clean_wikipedia_text (text : String) : String :=
  " ".intercalate ((text.split Char.isWhitespace).filter (· ≠ ""))

/-- Python's `needle in hay` on strings. -/
def pyStrIn (needle hay : String) : Bool :=
  needle = "" || (hay.splitOn needle).length != 1

/-- Tool `get_wikipedia_summary(title)` of `wikipedia.py`. -/
def get_wikipedia_summary (fetch : WikiFetch) (title : String) : String :=
  let encoded_title := title.replace " " "_"
  let url := WIKIPEDIA_API_BASE ++ "/page/summary/" ++ encoded_title
  match fetch url with
  | none => "Unable to fetch summary for: " ++ title
  | some data =>
      if data.type = some "disambiguation" then
        "'" ++ title ++ "' is a disambiguation page. Please be more specific with your search."
      else
        match data.extract with
        | none => "No summary available for: " ++ title
        | some e =>
            let extract := clean_wikipedia_text e
            let pageUrl :=
              data.pageUrl.getD ("https://en.wikipedia.org/wiki/" ++ encoded_title)
            let result := "\nTitle: " ++ data.title.getD title ++
              "\nSummary: " ++ extract ++ "\nURL: " ++ pageUrl ++ "\n"
            match data.thumbnail with
            | some t => result ++ "\nThumbnail: " ++ t
            | none => result

/-- The section-handling branch of `get_wikipedia_content` (executed when a
truthy `section` argument was given and the fetch succeeded). -/
def wikiContentSection (title s : String) (data : WikiData) : String :=
  match data.sections with
  | none => "No sections found for: " ++ title
  | some sections =>
      if s ≠ "" ∧ s.all Char.isDigit then
        let section_num := s.toNat?.getD 0
        if section_num < sections.length then
          let section_data := sections.getD section_num ⟨none, none⟩
          let content := clean_wikipedia_text (section_data.text.getD "No content")
          "Section " ++ toString section_num ++ ": " ++
            section_data.line.getD "Unknown" ++ "\n\n" ++ content
        else
          "Section " ++ s ++ " not found. Article has " ++
            toString sections.length ++ " sections."
      else
        match sections.find?
            (fun sect => pyStrIn s.toLower (sect.line.getD "").toLower) with
        | some sect =>
            let content := clean_wikipedia_text (sect.text.getD "No content")
            "Section: " ++ sect.line.getD "Unknown" ++ "\n\n" ++ content
        | none => "Section '" ++ s ++ "' not found."

/-- Tool `get_wikipedia_content(title, section=None)` of `wikipedia.py`.  With a
truthy `section` it fetches the mobile-sections URL and formats one section;
with no section it fetches the article-HTML URL and — when that fetch
returned data — falls through to `return await get_wikipedia_summary(title)`
(the source comments "Return summary since full HTML content would be too
large"). -/
def get_wikipedia_content (fetch : WikiFetch) (title : String)
    (sectionArg : Option String) : String :=
  let encoded_title := title.replace " " "_"
  let url :=
    if pyTruthy sectionArg then
      WIKIPEDIA_API_BASE ++ "/page/mobile-sections/" ++ encoded_title
    else
      WIKIPEDIA_API_BASE ++ "/page/html/" ++ encoded_title
  match fetch url with
  | none => "Unable to fetch content for: " ++ title
  | some data =>
      if pyTruthy sectionArg then
        wikiContentSection title (sectionArg.getD "") data
      else
        get_wikipedia_summary fetch title

/-! Theorems. -/

/-- The product accumulated by `factorial`'s loop over `range(2, k + 2)` is
`(k + 1)!`. -/
lemma range'_prod_factorial (k : ℕ) :
    ((List.range' 2 k).map Int.ofNat).foldl (· * ·) 1 =
      ((k + 1).factorial : ℤ) := by
  induction k with
  | zero => simp [Nat.factorial]
  | succ k ih =>
      have h : List.range' 2 (k + 1) = List.range' 2 k ++ [2 + k] := by
        have h' := List.range'_append_1 2 k 1
        rw [Nat.add_comm 1 k] at h'
        simpa using h'.symm
      rw [h, List.map_append, List.foldl_append, ih]
      show ((k + 1).factorial : ℤ) * Int.ofNat (2 + k) = ((k + 2).factorial : ℤ)
      have h2 : (k + 2).factorial = (k + 2) * (k + 1).factorial :=
        Nat.factorial_succ (k + 1)
      rw [h2, Int.ofNat_eq_coe]
      push_cast
      ring

/-- C1: dispatching `divide` with `{a: 10, b: 0}` and `sqrt` with `{a: -4}`
both yield ToolCallResults with `is_error = true` — the divide-by-zero and
negative-sqrt `ValueError`s raised by the handlers are caught by the
dispatcher and encoded as error text, not propagated and not returned as
numeric results. -/
theorem dispatch_domain_validation_error_results :
    mathDispatch "divide" [("a", .num 10), ("b", .num 0)] =
      ⟨"Cannot divide by zero", true⟩ ∧
    mathDispatch "sqrt" [("a", .num (-4))] =
      ⟨"Cannot calculate square root of negative number", true⟩ := by
  constructor <;> rfl

/-- C2: dispatching `add` with `{a: x, b: y}` returns the non-error result
`x + y`, and swapping the two argument values gives the identical
ToolCallResult. -/
theorem dispatch_add_roundtrip_commutative (x y : ℚ) :
    mathDispatch "add" [("a", .num x), ("b", .num y)] =
      ⟨numToText (.real (x + y)), false⟩ ∧
    mathDispatch "add" [("a", .num x), ("b", .num y)] =
      mathDispatch "add" [("a", .num y), ("b", .num x)] := by
  refine ⟨rfl, ?_⟩
  show ToolCallResult.mk (numToText (.real (add x y))) false =
    ToolCallResult.mk (numToText (.real (add y x))) false
  rw [show add x y = add y x from add_comm x y]

/-- C3: `factorial n` returns `n!` for every integer `n ≥ 0`, and raises
`ValueError` for every `n < 0`. -/
theorem factorial_matches_spec (n : ℤ) :
    (0 ≤ n → factorial n = .ok (Nat.factorial n.toNat)) ∧
    (n < 0 → factorial n =
      .error (.valueError "Factorial is not defined for negative numbers")) := by
  constructor
  · intro h
    unfold factorial
    rw [if_neg (by omega)]
    by_cases h01 : n = 0 ∨ n = 1
    · rw [if_pos h01]
      rcases h01 with rfl | rfl <;> simp [Nat.factorial]
    · rw [if_neg h01]
      rw [range'_prod_factorial ((n - 1).toNat)]
      have hk : (n - 1).toNat + 1 = n.toNat := by omega
      rw [hk]
  · intro h
    unfold factorial
    rw [if_pos h]

/-- Witness for C3 at `n = 5` and `n = -3`. -/
theorem factorial_matches_spec_witness :
    factorial 5 = .ok 120 ∧
    factorial (-3) =
      .error (.valueError "Factorial is not defined for negative numbers") := by
  constructor
  · have h := (factorial_matches_spec 5).1 (by decide)
    simpa using h
  · exact (factorial_matches_spec (-3)).2 (by decide)

/-- C4: on an initialized math Host session, `multiply {a:7, b:6}` yields
result text `42`, then `power {a:2, b:8}` yields `256`; after `close`, any
further request on the session gets a Session-level error response (the
machine is total, so nothing hangs) and the session stays CLOSED. -/
theorem math_session_scenario_and_closed_rejects :
    runSession .uninitialized
      [.initReq,
       .callTool "multiply" [("a", .num 7), ("b", .num 6)],
       .callTool "power" [("a", .num 2), ("b", .num 8)],
       .close,
       .callTool "add" [("a", .num 1), ("b", .num 1)]] =
      ([.initOk, .result ⟨numToText (.real 42), false⟩,
        .result ⟨numToText (.real 256), false⟩, .closedAck,
        .sessionError sessionClosedMsg], .closed) ∧
    (∀ req : SessionReq,
      sessionStep .closed req = (.closed, .sessionError sessionClosedMsg)) := by
  have h42 : multiply 7 6 = 42 := by norm_num [multiply]
  have h256 : power 2 8 = .ok (.real 256) := by
    rw [power, pyPow, if_neg (by norm_num), if_pos (by norm_num)]
    norm_num
  have hm : mathDispatch "multiply" [("a", .num 7), ("b", .num 6)] =
      ⟨numToText (.real 42), false⟩ := by
    rw [show mathDispatch "multiply" [("a", .num 7), ("b", .num 6)] =
      ⟨numToText (.real (multiply 7 6)), false⟩ from rfl, h42]
  have hp : mathDispatch "power" [("a", .num 2), ("b", .num 8)] =
      ⟨numToText (.real 256), false⟩ := by
    rw [show mathDispatch "power" [("a", .num 2), ("b", .num 8)] =
      resultOfOutcome (outcomeOfExcept (power 2 8)) from rfl, h256]
    rfl
  refine ⟨?_, fun req => by cases req <;> rfl⟩
  simp only [runSession, sessionStep, hm, hp]

/-- C5: with the required credential absent (unset or empty, both falsy), the
weather Host's module body raises at import so no Host starts; the tavily
Host's `search` and `search_news` instead return the key-missing message on
each call, attempting zero upstream requests, whatever the upstream would
answer. -/
theorem missing_credential_policy :
    (∀ env : Option String, ¬ pyTruthy env →
      weatherStartup env =
        .error (.valueError "OPENWEATHERMAP_API_KEY environment variable is required")) ∧
    (∀ (key : Option String) (upstream : Option TavilyResp) (q : String) (m : ℤ),
      ¬ pyTruthy key →
        tavilySearch key upstream q m =
          ("Tavily API key not found. Please set TAVILY_API_KEY environment variable.", 0) ∧
        tavilySearchNews key upstream q m =
          ("Tavily API key not found. Please set TAVILY_API_KEY environment variable.", 0)) := by
  constructor
  · intro env h
    have hf : pyTruthy env = false := by simpa using h
    simp [weatherStartup, weatherModuleInit, hf, Except.map]
  · intro key upstream q m h
    exact ⟨by simp [tavilySearch, h], by simp [tavilySearchNews, h]⟩

/-- Witness for C5 with the variables unset. -/
theorem missing_credential_policy_witness :
    weatherStartup none =
      .error (.valueError "OPENWEATHERMAP_API_KEY environment variable is required") ∧
    tavilySearch none (some ⟨some "an answer", []⟩) "latest AI news" 2 =
      ("Tavily API key not found. Please set TAVILY_API_KEY environment variable.", 0) ∧
    tavilySearchNews none none "storms" 5 =
      ("Tavily API key not found. Please set TAVILY_API_KEY environment variable.", 0) :=
  ⟨missing_credential_policy.1 none (by decide),
   (missing_credential_policy.2 none (some ⟨some "an answer", []⟩) "latest AI news" 2
     (by decide)).1,
   (missing_credential_policy.2 none none "storms" 5 (by decide)).2⟩

/-- C6: dispatching any name absent from the math registry yields the
`UnknownToolError` encoded as a call-level error result — never a raised
exception (the dispatcher is total) — and the READY session stays READY. -/
theorem dispatch_unknown_tool_error (name : String) (args : Args)
    (h : name ∉ mathToolNames) :
    mathDispatch name args = ⟨"Unknown tool: " ++ name, true⟩ ∧
    sessionStep .ready (.callTool name args) =
      (.ready, .result ⟨"Unknown tool: " ++ name, true⟩) := by
  have hfind : mathTools.find? (fun p => p.1 = name) = none := by
    rw [List.find?_eq_none]
    intro p hp
    simp only [decide_eq_true_eq]
    intro hEq
    exact h (List.mem_map.mpr ⟨p, hp, hEq⟩)
  have hd : mathDispatch name args = ⟨"Unknown tool: " ++ name, true⟩ := by
    simp [mathDispatch, mathInvoke, hfind, resultOfOutcome]
  refine ⟨hd, ?_⟩
  rw [show sessionStep .ready (.callTool name args) =
    (.ready, .result (mathDispatch name args)) from rfl, hd]

/-- Witness for C6 at a name outside the registry. -/
theorem dispatch_unknown_tool_error_witness :
    mathDispatch "frobnicate" [] = ⟨"Unknown tool: frobnicate", true⟩ ∧
    sessionStep .ready (.callTool "frobnicate" []) =
      (.ready, .result ⟨"Unknown tool: frobnicate", true⟩) :=
  dispatch_unknown_tool_error "frobnicate" [] (by decide)

/-- C7: registering each Host's tool list in source order succeeds without a
`DuplicateToolError`, every Host's registered name list (what `list()`
reports) is duplicate-free, the math Host's registry holds exactly the seven
names `add … factorial`, and re-registering an already-present name fails
with `DuplicateToolError` rather than overwriting. -/
theorem registry_names_distinct :
    registerAll mathToolNames = .ok mathToolNames ∧
    mathToolNames =
      ["add", "subtract", "multiply", "divide", "power", "sqrt", "factorial"] ∧
    mathToolNames.Nodup ∧
    register mathToolNames "add" = .error (.duplicateTool "add") ∧
    (registerAll weatherToolNames = .ok weatherToolNames ∧ weatherToolNames.Nodup) ∧
    (registerAll wikipediaToolNames = .ok wikipediaToolNames ∧
      wikipediaToolNames.Nodup) ∧
    (registerAll arxivToolNames = .ok arxivToolNames ∧ arxivToolNames.Nodup) ∧
    (registerAll tavilyToolNames = .ok tavilyToolNames ∧ tavilyToolNames.Nodup) := by
  refine ⟨rfl, rfl, by decide, rfl, ⟨rfl, by decide⟩, ⟨rfl, by decide⟩,
    ⟨rfl, by decide⟩, rfl, by decide⟩

/-- C8: an UNINITIALIZED session answers every `list`/`dispatch` request with
a handshake-required error and stays UNINITIALIZED; a call is answered with a
tool result only from the READY state; and every client demo trace in the
repository (the fixed demo scripts, and `call_mcp_tool`'s trace for any tool
and arguments) performs `initialize` before its first request. -/
theorem session_requires_initialization :
    (∀ req : SessionReq, isToolRequest req = true →
      sessionStep .uninitialized req =
        (.uninitialized, .sessionError handshakeRequiredMsg)) ∧
    (∀ (st : SessionState) (name : String) (args : Args) (r : ToolCallResult),
      (sessionStep st (.callTool name args)).2 = .result r → st = .ready) ∧
    demoTraces.all initFirst = true ∧
    (∀ (name : String) (args : Args),
      initFirst (simpleDemoCallOps name args) = true) := by
  refine ⟨?_, ?_, by decide, fun name args => rfl⟩
  · intro req h
    cases req <;> first | rfl | simp [isToolRequest] at h
  · intro st name args r h
    cases st with
    | uninitialized => exact absurd h (by simp [sessionStep])
    | ready => rfl
    | closed => exact absurd h (by simp [sessionStep])

/-- Witness for C8 at concrete requests. -/
theorem session_requires_initialization_witness :
    sessionStep .uninitialized .listTools =
      (.uninitialized, .sessionError handshakeRequiredMsg) ∧
    SessionState.ready = SessionState.ready ∧
    initFirst (simpleDemoCallOps "add" [("a", .num 5), ("b", .num 3)]) = true :=
  ⟨session_requires_initialization.1 .listTools rfl,
   session_requires_initialization.2.1 .ready "add" [("a", .num 5), ("b", .num 3)]
     (mathDispatch "add" [("a", .num 5), ("b", .num 3)]) rfl,
   session_requires_initialization.2.2.2 "add" [("a", .num 5), ("b", .num 3)]⟩

/-- C9 counterexample: the claimed equivalence fails when the upstream fetch
fails — with an upstream answering nothing, the no-section content path
returns its own "Unable to fetch content" message while the summary path
returns the summary error message. -/
theorem content_vs_summary_counterexample :
    get_wikipedia_content (fun _ => none) "X" none ≠
      get_wikipedia_summary (fun _ => none) "X" := by
  decide

/-- C9 (amended): with no section argument, `get_wikipedia_content` still
fetches the article-HTML URL first; when that fetch yields data it discards
it and returns exactly `get_wikipedia_summary` for the same title (and fixed
upstream), and when the fetch fails it returns the content error message
instead. -/
theorem content_delegates_to_summary (fetch : WikiFetch) (title : String) :
    (fetch (WIKIPEDIA_API_BASE ++ "/page/html/" ++ title.replace " " "_") ≠ none →
      get_wikipedia_content fetch title none = get_wikipedia_summary fetch title) ∧
    (fetch (WIKIPEDIA_API_BASE ++ "/page/html/" ++ title.replace " " "_") = none →
      get_wikipedia_content fetch title none =
        "Unable to fetch content for: " ++ title) := by
  constructor
  · intro h
    cases hf : fetch (WIKIPEDIA_API_BASE ++ "/page/html/" ++ title.replace " " "_") with
    | none => exact absurd hf h
    | some d => simp [get_wikipedia_content, pyTruthy, hf]
  · intro h
    simp [get_wikipedia_content, pyTruthy, h]

/-- Witness for C9's amended claim at a concrete title and upstream. -/
theorem content_delegates_to_summary_witness :
    get_wikipedia_content
        (fun _ => some ⟨none, some "ML is a field of AI.", none, none, none, none⟩)
        "Machine learning" none =
      get_wikipedia_summary
        (fun _ => some ⟨none, some "ML is a field of AI.", none, none, none, none⟩)
        "Machine learning" ∧
    get_wikipedia_content (fun _ => none) "Machine learning" none =
      "Unable to fetch content for: " ++ "Machine learning" :=
  ⟨(content_delegates_to_summary
      (fun _ => some ⟨none, some "ML is a field of AI.", none, none, none, none⟩)
      "Machine learning").1 (by simp),
   (content_delegates_to_summary (fun _ => none) "Machine learning").2 rfl⟩

/-- C10: the `power` handler performs no domain validation — for base `0` and
any negative exponent, `a ** b` raises `ZeroDivisionError` from inside the
handler, which surfaces through dispatch as an error result rather than a
number. -/
theorem power_zero_negative_exponent_raises (b : ℚ) (h : b < 0) :
    power 0 b = .error .zeroDivisionError ∧
    mathDispatch "power" [("a", .num 0), ("b", .num b)] =
      ⟨errText .zeroDivisionError, true⟩ := by
  have hp : power 0 b = .error .zeroDivisionError := by
    simp [power, pyPow, h]
  refine ⟨hp, ?_⟩
  rw [show mathDispatch "power" [("a", .num 0), ("b", .num b)] =
    resultOfOutcome (outcomeOfExcept (power 0 b)) from rfl, hp]
  rfl

/-- Witness for C10 at exponent `-1`. -/
theorem power_zero_negative_exponent_raises_witness :
    power 0 (-1) = .error .zeroDivisionError ∧
    mathDispatch "power" [("a", .num 0), ("b", .num (-1))] =
      ⟨errText .zeroDivisionError, true⟩ :=
  power_zero_negative_exponent_raises (-1) (by decide)

end MCPHost
